import Mathlib

/-!
Shallow embedding of the Issue Detection & Resolution Engine
(`app/services/profiler.py`, `app/services/nlp.py`, `app/services/cleaner.py`
and the data model in `app/models.py`).

A pandas cell is embedded as `Cell` (NaN/None as `Cell.null`, numbers as
exact rationals, strings as `String`); a dataframe is an ordered list of
named, dtyped columns of equal length.  Python float arithmetic is embedded
as exact rational arithmetic (a faithful model except at ties far below
float precision, none of which the claims touch), and Python string
containment (`in`) as list-infix on the character data.
-/

set_option allowUnsafeReducibility true in
attribute [semireducible] Rat.ofScientific Rat.mul Rat.inv Rat.add Rat.sub

set_option maxRecDepth 40000

/-- A single dataframe cell: missing (NaN/None), numeric, or string. -/
inductive Cell where
  | null : Cell
  | num (q : ℚ) : Cell
  | str (s : String) : Cell
deriving DecidableEq, Repr

/-- Column dtype as pandas sees it: numeric (int/float) or object (text). -/
inductive DType where
  | numeric : DType
  | object : DType
deriving DecidableEq, Repr

/-- A named, typed column of cells. -/
structure Column where
  name : String
  dtype : DType
  cells : List Cell
deriving DecidableEq, Repr

/-- A dataframe: ordered columns, all of the same length in well-formed frames. -/
structure DataFrame where
  cols : List Column
deriving DecidableEq, Repr

/-- Python `len(df)`: the number of rows. -/
def DataFrame.nRows (df : DataFrame) : Nat :=
  match df.cols with
  | [] => 0
  | c :: _ => c.cells.length

/-- `df.copy()`: pandas returns a frame equal in content; in the pure
embedding content equality is equality. -/
def DataFrame.copy (df : DataFrame) : DataFrame := df

/-- Column lookup `df[name]` (first matching column). -/
def DataFrame.getCol (df : DataFrame) (name : String) : Option Column :=
  df.cols.find? (fun c => c.name == name)

/-- Column assignment `df[name] = cells`: replaces the cells (and dtype) of
every column labelled `name`. -/
def DataFrame.setCol (df : DataFrame) (name : String) (dtype : DType)
    (cells : List Cell) : DataFrame :=
  ⟨df.cols.map (fun c => if c.name == name then ⟨c.name, dtype, cells⟩ else c)⟩

/-- The `i`-th row of the frame (`df.iloc[i]` as a list of cells). -/
def DataFrame.rowsList (df : DataFrame) : List (List Cell) :=
  (List.range df.nRows).map (fun i => df.cols.map (fun c => c.cells.getD i Cell.null))

/-- Keep only the rows whose mask entry is `true` (boolean-mask row filter). -/
def maskFilter (mask : List Bool) (cells : List Cell) : List Cell :=
  ((mask.zip cells).filterMap (fun p => if p.1 then some p.2 else none))

/-- Row filtering of a whole frame by a boolean mask. -/
def DataFrame.filterRows (df : DataFrame) (mask : List Bool) : DataFrame :=
  ⟨df.cols.map (fun c => ⟨c.name, c.dtype, maskFilter mask c.cells⟩)⟩

/-- Python `sub in s` (substring containment), on character data. -/
def substrOf (sub s : String) : Prop :=
  sub.data <:+: s.data

instance (sub s : String) : Decidable (substrOf sub s) :=
  inferInstanceAs (Decidable (sub.data <:+: s.data))

/-- Python `str.lower()` (ASCII model; the character data of
`String.toLower`, written structurally). -/
def pyLower (s : String) : String := ⟨s.data.map Char.toLower⟩

/-- Insert into a sorted list, before the first element `y` with `le x y`. -/
def insertSorted (le : α → α → Bool) (x : α) : List α → List α
  | [] => [x]
  | y :: ys => if le x y then x :: y :: ys else y :: insertSorted le x ys

/-- Stable insertion sort (equal elements keep their input order). -/
def stableSort (le : α → α → Bool) (xs : List α) : List α :=
  xs.foldr (insertSorted le) []

/-- The decimal digit character for `d < 10` (`'9'` for larger inputs,
which never occur). -/
def digitChar (d : Nat) : Char :=
  if d = 0 then '0' else if d = 1 then '1' else if d = 2 then '2'
  else if d = 3 then '3' else if d = 4 then '4' else if d = 5 then '5'
  else if d = 6 then '6' else if d = 7 then '7' else if d = 8 then '8' else '9'

/-- Decimal digit list, with explicit fuel (`n + 1` always suffices). -/
def natDecDataAux : Nat → Nat → List Char
  | 0, _ => []
  | fuel + 1, n =>
    if n < 10 then [digitChar n]
    else natDecDataAux fuel (n / 10) ++ [digitChar (n % 10)]

/-- Decimal digit list of a natural number (Python `str(n)` character data). -/
def natDecData (n : Nat) : List Char := natDecDataAux (n + 1) n

/-- Python `str(n)` for a nonnegative integer count. -/
def natToDecimal (n : Nat) : String := ⟨natDecData n⟩

/-- Round-half-even of a rational to an integer (the rounding used by
Python float formatting, modelled exactly on rationals). -/
def roundHalfEven (x : ℚ) : ℤ :=
  let f : ℤ := ⌊x⌋
  let r : ℚ := x - (f : ℚ)
  if r < 1/2 then f
  else if 1/2 < r then f + 1
  else if f % 2 = 0 then f else f + 1

/-- Python `f"{x:.1f}"`, modelled by exact round-half-even to one decimal. -/
def formatPct1 (x : ℚ) : String :=
  let n10 : ℤ := roundHalfEven (x * 10)
  let m : Nat := n10.natAbs
  let core : String := natToDecimal (m / 10) ++ "." ++ ⟨[digitChar (m % 10)]⟩
  if n10 < 0 then "-" ++ core else core

/-- Python `f"{x:.2f}"` with NaN (`none`) printing as `"nan"`. -/
def format2f (x : Option ℚ) : String :=
  match x with
  | none => "nan"
  | some q =>
    let n100 : ℤ := roundHalfEven (q * 100)
    let m : Nat := n100.natAbs
    let core : String :=
      natToDecimal (m / 100) ++ "." ++ ⟨[digitChar (m / 10 % 10), digitChar (m % 10)]⟩
    if n100 < 0 then "-" ++ core else core

/-- Decimal expansion of the fractional part of a nonnegative rational,
up to `fuel` digits (model of float repr digits). -/
def fracDigits (fuel : Nat) (r : ℚ) : List Char :=
  match fuel with
  | 0 => []
  | fuel + 1 =>
    if r = 0 then []
    else
      let r10 := r * 10
      let d := (⌊r10⌋).toNat
      digitChar d :: fracDigits fuel (r10 - (⌊r10⌋ : ℚ))

/-- Python `str(float)` model: sign, integer part, and up to 17 fractional
digits (`"25.0"` style; exact for the terminating decimals the code meets). -/
def floatRepr (q : ℚ) : String :=
  let sign := if q < 0 then "-" else ""
  let a := |q|
  let ip : Nat := (⌊a⌋).toNat
  let fr := fracDigits 17 (a - (⌊a⌋ : ℚ))
  sign ++ natToDecimal ip ++ "." ++ (if fr = [] then "0" else ⟨fr⟩)

/-- Python `str(value)` of a cell (NaN prints as `"nan"`). -/
def cellPyStr (c : Cell) : String :=
  match c with
  | Cell.null => "nan"
  | Cell.num q => floatRepr q
  | Cell.str s => s

/-- Python `str.title()` (ASCII model): first letter of each letter-run
upper-cased, the rest lower-cased. -/
def pyTitleData : Bool → List Char → List Char
  | _, [] => []
  | prevAlpha, c :: cs =>
    (if c.isAlpha then (if prevAlpha then c.toLower else c.toUpper) else c)
      :: pyTitleData c.isAlpha cs

def pyTitle (s : String) : String := ⟨pyTitleData false s.data⟩

/-- Digits read left-to-right as a natural number. -/
def digitsToNat (ds : List Char) : Nat :=
  ds.foldl (fun acc c => acc * 10 + (c.toNat - '0'.toNat)) 0

/-- `pd.to_numeric` string acceptance: optional sign, digits with optional
decimal point, optional exponent.  Returns the exact rational value. -/
def parseNumeric (s : String) : Option ℚ :=
  let cs := s.data.dropWhile (fun c => c = ' ')
  let cs := (cs.reverse.dropWhile (fun c => c = ' ')).reverse
  let (sign, cs) : ℚ × List Char :=
    match cs with
    | '-' :: rest => (-1, rest)
    | '+' :: rest => (1, rest)
    | rest => (1, rest)
  let intPart := cs.takeWhile Char.isDigit
  let cs := cs.dropWhile Char.isDigit
  let (fracPart, cs) : List Char × List Char :=
    match cs with
    | '.' :: rest => (rest.takeWhile Char.isDigit, rest.dropWhile Char.isDigit)
    | rest => ([], rest)
  if intPart = [] ∧ fracPart = [] then none
  else
    let mant : ℚ := (digitsToNat intPart : ℚ) +
      (digitsToNat fracPart : ℚ) / ((10 : ℚ) ^ fracPart.length)
    match cs with
    | [] => some (sign * mant)
    | 'e' :: rest => parseExp (sign * mant) rest
    | 'E' :: rest => parseExp (sign * mant) rest
    | _ => none
where
  parseExp (m : ℚ) (cs : List Char) : Option ℚ :=
    let (esign, cs) : Bool × List Char :=
      match cs with
      | '-' :: rest => (true, rest)
      | '+' :: rest => (false, rest)
      | rest => (false, rest)
    if cs ≠ [] ∧ cs.all Char.isDigit then
      let e := digitsToNat cs
      some (if esign then m / (10 : ℚ) ^ e else m * (10 : ℚ) ^ e)
    else none

/-- The numeric values of a column's cells in order (NaN dropped, as pandas
statistics do; numeric-dtyped columns contain no string cells). -/
def numsOf (cells : List Cell) : List ℚ :=
  cells.filterMap (fun c => match c with | Cell.num q => some q | _ => none)

/-- `Series.quantile(p)` with the default linear interpolation, on the
sorted non-null values; `none` (NaN) when there are no values. -/
def quantileQ (p : ℚ) (cells : List Cell) : Option ℚ :=
  let xs := stableSort (fun a b => decide (a ≤ b)) (numsOf cells)
  match xs with
  | [] => none
  | _ =>
    let n := xs.length
    let h : ℚ := p * ((n : ℚ) - 1)
    let i : Nat := (⌊h⌋).toNat
    let a := xs.getD i 0
    let b := xs.getD (i + 1) a
    some (a + (h - (i : ℚ)) * (b - a))

/-- Null count of a column (`df[col].isnull().sum()`). -/
def nullCount (cells : List Cell) : Nat :=
  cells.countP (fun c => c == Cell.null)

/-- Count of rows equal to an earlier row (`df.duplicated().sum()`;
pandas treats NaN cells as equal for duplicate detection, as `Cell` equality
does). -/
def dupCountGo (seen : List (List Cell)) : List (List Cell) → Nat
  | [] => 0
  | r :: rest => (if r ∈ seen then 1 else 0) + dupCountGo (r :: seen) rest

def dupCount (rows : List (List Cell)) : Nat := dupCountGo [] rows

/-- Distinct non-null values in first-occurrence order (`Series.dropna().unique()`). -/
def uniqueNonNull (cells : List Cell) : List Cell :=
  (cells.filter (fun c => !(c == Cell.null))).dedup

/-- `Series.nunique()`: number of distinct non-null values. -/
def nuniqueOf (cells : List Cell) : Nat := (uniqueNonNull cells).length

/-- `Series.value_counts()`: distinct non-null values with their counts,
stably sorted by decreasing count (tie order modelled as first occurrence). -/
def valueCounts (cells : List Cell) : List (Cell × Nat) :=
  stableSort (fun a b => decide (b.2 ≤ a.2))
    ((uniqueNonNull cells).map (fun v => (v, cells.count v)))

/-- `value_counts().nlargest(10).index`: the ten most frequent non-null values. -/
def topValues (cells : List Cell) : List Cell :=
  ((valueCounts cells).take 10).map (fun p => p.1)

/-! ## Data model (`app/models.py`) -/

/-- `Severity` enum. -/
inductive Severity where
  | HIGH : Severity
  | MEDIUM : Severity
  | LOW : Severity
deriving DecidableEq, Repr

/-- `IssueType` enum. -/
inductive IssueType where
  | MISSING_VALUES : IssueType
  | DUPLICATES : IssueType
  | OUTLIERS : IssueType
  | INCONSISTENT_TYPE : IssueType
  | TEXT_INCONSISTENCY : IssueType
  | VISUALIZATION_RISK : IssueType
deriving DecidableEq, Repr

/-- `ResolutionStrategy` model. -/
structure ResolutionStrategy where
  name : String
  description : String
  action_code : String
deriving DecidableEq, Repr

/-- `DetectedIssue` model (`row_count` is a Python `int`). -/
structure DetectedIssue where
  id : String
  type : IssueType
  column : Option String
  description : String
  severity : Severity
  impact : String
  row_count : Int
  strategies : List ResolutionStrategy
deriving DecidableEq, Repr

instance : Inhabited DetectedIssue :=
  ⟨⟨"", IssueType.MISSING_VALUES, none, "", Severity.LOW, "", 0, []⟩⟩

/-- `FixRequest` model. -/
structure FixRequest where
  issue_id : String
  strategy_code : String
deriving DecidableEq, Repr

/-- The issue with its `id` replaced by the empty string: issues agree on
`stripId` exactly when they agree on everything but the generated id. -/
def stripId (i : DetectedIssue) : DetectedIssue := { i with id := "" }

/-! ## Detector (`app/services/profiler.py`, `ProfilerService.analyze`)

`uuid.uuid4()` produces a fresh opaque id per issue; it is modelled by
numbering the issues of one pass sequentially (`numberIds`).  No claim
depends on id values, only on the remaining fields. -/

namespace ProfilerService

/-- Identifier-like column name: `"id" in col.lower() or "key" in col.lower()
or "code" in col.lower()`. -/
def idLikeName (name : String) : Prop :=
  substrOf "id" (pyLower name) ∨ substrOf "key" (pyLower name) ∨
    substrOf "code" (pyLower name)

instance (name : String) : Decidable (idLikeName name) := by
  unfold idLikeName; infer_instance

/-- The missing-values percentage of a column: `(count / len(df)) * 100`. -/
def missingPct (df : DataFrame) (cnt : Nat) : ℚ :=
  ((cnt : ℚ) / (df.nRows : ℚ)) * 100

/-- Description string of a missing-values issue:
`f"Column '{col}' has {count} missing values ({pct:.1f}%)."`. -/
def missingDesc (name : String) (cnt : Nat) (pct : ℚ) : String :=
  "Column '" ++ name ++ "' has " ++ natToDecimal cnt ++ " missing values (" ++
    formatPct1 pct ++ "%)."

/-- The strategy list of a missing-values issue, with the context-aware
insertions for numeric vs non-numeric columns. -/
def missingStrategies (isNumeric : Bool) : List ResolutionStrategy :=
  let strategies : List ResolutionStrategy :=
    [⟨"Drop Rows", "Remove rows with missing values", "drop_rows"⟩,
     ⟨"Ignore", "Keep data as is", "ignore"⟩]
  if isNumeric then
    ((strategies.insertIdx 1 ⟨"Fill with Median", "Robust fill for skewed data", "fill_median"⟩).insertIdx 2
      ⟨"Fill with Mean", "Standard fill for normal data", "fill_mean"⟩).insertIdx 3
      ⟨"Forward Fill", "Propagate last valid observation", "ffill"⟩
  else
    (strategies.insertIdx 1 ⟨"Fill with Mode", "Replace with most frequent value", "fill_mode"⟩).insertIdx 2
      ⟨"Fill 'Unknown'", "Explicitly label as Unknown", "fill_unknown"⟩

/-- The missing-values issue of one column (id not yet assigned). -/
def mkMissingIssue (df : DataFrame) (c : Column) : DetectedIssue :=
  let count := nullCount c.cells
  let pct := missingPct df count
  { id := ""
    type := IssueType.MISSING_VALUES
    column := some c.name
    description := missingDesc c.name count pct
    severity := if pct > 20 then Severity.HIGH else Severity.MEDIUM
    impact := "Missing data causes errors in aggregation and voids chart rendering."
    row_count := (count : Int)
    strategies := missingStrategies (c.dtype == DType.numeric) }

/-- Check 1: missing values. -/
def missingIssues (df : DataFrame) : List DetectedIssue :=
  df.cols.filterMap (fun c =>
    if nullCount c.cells > 0 then some (mkMissingIssue df c) else none)

/-- Check 2: duplicates. -/
def duplicateIssues (df : DataFrame) : List DetectedIssue :=
  let dupes := dupCount df.rowsList
  if dupes > 0 then
    [{ id := ""
       type := IssueType.DUPLICATES
       column := none
       description := "Dataset contains " ++ natToDecimal dupes ++ " exact duplicate rows."
       severity := Severity.HIGH
       impact := "Duplicates artificially inflate counts and bias statistical models."
       row_count := (dupes : Int)
       strategies :=
         [⟨"Remove Duplicates", "Keep only the first occurrence", "remove_duplicates"⟩,
          ⟨"Ignore", "Keep duplicates", "ignore"⟩] }]
  else []

/-- IQR outlier count of a column: values outside
`[Q1 - 1.5*IQR, Q3 + 1.5*IQR]` (NaN compares false, hence is never counted). -/
def outlierCount (cells : List Cell) : Nat :=
  match quantileQ (1/4 : ℚ) cells, quantileQ (3/4 : ℚ) cells with
  | some q1, some q3 =>
    let iqr := q3 - q1
    cells.countP (fun c =>
      match c with
      | Cell.num v => decide (v < q1 - 1.5 * iqr ∨ v > q3 + 1.5 * iqr)
      | _ => false)
  | _, _ => 0

/-- Outlier percentage of a column: `(outliers / len(df)) * 100`. -/
def outlierPct (df : DataFrame) (cells : List Cell) : ℚ :=
  ((outlierCount cells : ℚ) / (df.nRows : ℚ)) * 100

/-- Check 3: numeric outliers, skipping identifier-named columns. -/
def outlierIssues (df : DataFrame) : List DetectedIssue :=
  (df.cols.filter (fun c => c.dtype == DType.numeric)).filterMap (fun c =>
    if idLikeName c.name then none
    else
      let outliers := outlierCount c.cells
      if outliers > 0 then
        if 0 < outlierPct df c.cells ∧ outlierPct df c.cells < 15 then
          some
            { id := ""
              type := IssueType.OUTLIERS
              column := some c.name
              description := "Column '" ++ c.name ++ "' has " ++
                natToDecimal outliers ++ " outliers."
              severity := Severity.MEDIUM
              impact := "Outliers skew averages and distort visualizations."
              row_count := (outliers : Int)
              strategies :=
                [⟨"Clip Values", "Cap values at min/max thresholds", "clip_outliers"⟩,
                 ⟨"Remove Rows", "Delete rows with outliers", "drop_outliers"⟩,
                 ⟨"Ignore", "Keep actual values", "ignore"⟩] }
        else none
      else none)

/-- `pd.to_numeric(df[col], errors='coerce')` on one cell. -/
def coerceNumeric (c : Cell) : Option ℚ :=
  match c with
  | Cell.null => none
  | Cell.num q => some q
  | Cell.str s => parseNumeric s

/-- Check 4: inconsistent types (numbers stored as text). -/
def inconsistentTypeIssues (df : DataFrame) : List DetectedIssue :=
  (df.cols.filter (fun c => c.dtype == DType.object)).filterMap (fun c =>
    let numValid := c.cells.countP (fun x => (coerceNumeric x).isSome)
    if (numValid : ℚ) > (0.8 : ℚ) * (df.nRows : ℚ) ∧ numValid < df.nRows then
      some
        { id := ""
          type := IssueType.INCONSISTENT_TYPE
          column := some c.name
          description := "Column '" ++ c.name ++ "' looks numeric but contains text/garbage."
          severity := Severity.HIGH
          impact := "Prevents mathematical operations and sorting."
          row_count := (df.nRows : Int)
          strategies :=
            [⟨"Convert to Numeric", "Force conversion (text becomes NaN)", "convert_numeric"⟩,
             ⟨"Ignore", "Keep as text", "ignore"⟩] }
    else none)

/-- Distinct lower-cased string values (`set(x.lower() for x in unique_vals
if isinstance(x, str))` as a deduplicated list). -/
def uniqueLowerStrs (cells : List Cell) : List String :=
  ((uniqueNonNull cells).filterMap (fun c =>
    match c with
    | Cell.str s => some (pyLower s)
    | _ => none)).dedup

/-- Check 5: text-casing inconsistency on low-cardinality text columns. -/
def textCaseIssues (df : DataFrame) : List DetectedIssue :=
  (df.cols.filter (fun c => c.dtype == DType.object)).filterMap (fun c =>
    if nuniqueOf c.cells < 50 then
      if (uniqueLowerStrs c.cells).length < (uniqueNonNull c.cells).length then
        some
          { id := ""
            type := IssueType.TEXT_INCONSISTENCY
            column := some c.name
            description := "Column '" ++ c.name ++
              "' has inconsistent text casing (e.g., 'A' vs 'a')."
            severity := Severity.LOW
            impact := "Splits identical categories into separate groups in charts."
            row_count := (df.nRows : Int)
            strategies :=
              [⟨"Standardize (Title Case)", "Convert to 'Title Case'", "title_case"⟩,
               ⟨"Standardize (Lower Case)", "Convert to 'lower case'", "lower_case"⟩,
               ⟨"Ignore", "Keep as is", "ignore"⟩] }
      else none
    else none)

/-- All five checks, in source order, before id generation. -/
def analyzeRaw (df : DataFrame) : List DetectedIssue :=
  missingIssues df ++ duplicateIssues df ++ outlierIssues df ++
    inconsistentTypeIssues df ++ textCaseIssues df

/-- Fresh-id numbering (the model of one `uuid.uuid4()` per issue). -/
def numberIds (k : Nat) : List DetectedIssue → List DetectedIssue
  | [] => []
  | i :: rest => { i with id := natToDecimal k } :: numberIds (k + 1) rest

/-- `ProfilerService.analyze` (`profiler.py`, lines 9-156). -/
def analyze (df : DataFrame) : List DetectedIssue :=
  numberIds 0 (analyzeRaw df)

end ProfilerService

/-! ## Heuristic Advisor & Command Interpreter (`app/services/nlp.py`) -/

namespace NLPService

/-- The column-name test in the missing-values heuristic:
`issue.column and ("date" in issue.column.lower() or "time" in issue.column.lower())`
(Python truthiness: `None` and the empty string are falsy). -/
def columnDateTime (column : Option String) : Prop :=
  match column with
  | some c => c ≠ "" ∧ (substrOf "date" (pyLower c) ∨ substrOf "time" (pyLower c))
  | none => False

instance (column : Option String) : Decidable (columnDateTime column) := by
  cases column <;> · unfold columnDateTime; infer_instance

/-- `NLPService._get_default_strategy` (`nlp.py`, lines 75-108). -/
def getDefaultStrategy (issue : DetectedIssue) : String :=
  if issue.type = IssueType.DUPLICATES then "remove_duplicates"
  else if issue.type = IssueType.MISSING_VALUES then
    if issue.row_count < 20 ∨ (issue.row_count : ℚ) / 1000 < (0.05 : ℚ) then "drop_rows"
    else if columnDateTime issue.column then "ffill"
    else if substrOf "Numeric" issue.description then "fill_median"
    else "fill_mode"
  else if issue.type = IssueType.OUTLIERS then "clip_outliers"
  else if issue.type = IssueType.VISUALIZATION_RISK then "group_rare"
  else if issue.type = IssueType.INCONSISTENT_TYPE then "convert_numeric"
  else if issue.type = IssueType.TEXT_INCONSISTENCY then "title_case"
  else "ignore"

/-- `NLPService.interpret_command` (`nlp.py`, lines 6-41).  The source
compares `issue.severity == "High"`, which on the string enum holds exactly
for `Severity.HIGH`; `if strategy:` is Python truthiness of the returned
(always non-empty) string. -/
def interpret_command (command : String) (issues : List DetectedIssue) :
    List (String × String) :=
  let cmd := pyLower command
  if substrOf "high" cmd ∨ substrOf "critical" cmd ∨ substrOf "severe" cmd then
    issues.filterMap (fun issue =>
      if issue.severity = Severity.HIGH then
        let strategy := getDefaultStrategy issue
        if strategy ≠ "" then some (issue.id, strategy) else none
      else none)
  else if substrOf "missing" cmd ∨ substrOf "null" cmd ∨ substrOf "empty" cmd then
    issues.filterMap (fun issue =>
      if issue.type = IssueType.MISSING_VALUES then
        let strategy := getDefaultStrategy issue
        if strategy ≠ "" then some (issue.id, strategy) else none
      else none)
  else if substrOf "text" cmd ∨ substrOf "case" cmd then
    issues.filterMap (fun issue =>
      if issue.type = IssueType.TEXT_INCONSISTENCY then
        some (issue.id, "title_case")
      else none)
  else if substrOf "type" cmd ∨ substrOf "number" cmd then
    issues.filterMap (fun issue =>
      if issue.type = IssueType.INCONSISTENT_TYPE then
        some (issue.id, "convert_numeric")
      else none)
  else if substrOf "all" cmd ∨ substrOf "everything" cmd then
    issues.filterMap (fun issue =>
      let strategy := getDefaultStrategy issue
      if strategy ≠ "" then some (issue.id, strategy) else none)
  else []

end NLPService

/-! ## Transform Engine (`app/services/cleaner.py`, `CleanerService.apply_fixes`)

The Python loop mutates `df_clean` and `audit_log` in place and never touches
the caller's `df` after the initial `df.copy()`; the state of the loop is made
explicit as `CleanerState` carrying all three.  Operations that raise in
pandas (missing/None column key, numeric statistics over string data,
`mode()[0]` on an empty mode) are embedded in `Except`. -/

/-- Explicit state of the `apply_fixes` loop. -/
structure CleanerState where
  df : DataFrame
  df_clean : DataFrame
  audit_log : List String
deriving DecidableEq, Repr

namespace CleanerService

/-- `True` for cells pandas would refuse in a numeric aggregation. -/
def isStrCell (c : Cell) : Bool :=
  match c with
  | Cell.str _ => true
  | _ => false

/-- Values entering a numeric statistic: strings raise `TypeError`, NaN is
dropped. -/
def numStatCells (cells : List Cell) : Except String (List ℚ) :=
  if cells.any isStrCell then Except.error "TypeError"
  else Except.ok (numsOf cells)

/-- `Series.mean()` (NaN when no values). -/
def meanE (cells : List Cell) : Except String (Option ℚ) := do
  let xs ← numStatCells cells
  pure (if xs.length = 0 then none else some (xs.sum / (xs.length : ℚ)))

/-- `Series.median()` (NaN when no values). -/
def medianE (cells : List Cell) : Except String (Option ℚ) := do
  let _ ← numStatCells cells
  pure (quantileQ (1/2 : ℚ) cells)

/-- Numeric value of a cell, `0` for the impossible non-numeric case. -/
def qOf (c : Cell) : ℚ :=
  match c with
  | Cell.num q => q
  | _ => 0

/-- String value of a cell, `""` for the impossible non-string case. -/
def sOf (c : Cell) : String :=
  match c with
  | Cell.str s => s
  | _ => ""

/-- `Series.mode()`: the most frequent non-null values, sorted ascending
when homogeneous (pandas keeps them unsorted when sorting raises). -/
def modeCells (cells : List Cell) : List Cell :=
  let pairs := (uniqueNonNull cells).map (fun v => (v, cells.count v))
  let maxCnt := pairs.foldl (fun acc p => max acc p.2) 0
  let cands := (pairs.filter (fun p => p.2 == maxCnt)).map (fun p => p.1)
  if cands.all (fun c => match c with | Cell.num _ => true | _ => false) then
    stableSort (fun a b => decide (qOf a ≤ qOf b)) cands
  else if cands.all (fun c => match c with | Cell.str _ => true | _ => false) then
    stableSort (fun a b => decide (sOf a < sOf b) || (sOf a == sOf b)) cands
  else cands

/-- `df[col]` with a possibly-`None` key: raises `KeyError` when the key is
`None` or names no column. -/
def requireColE (df : DataFrame) (column : Option String) :
    Except String (String × Column) :=
  match column with
  | none => Except.error "KeyError"
  | some name =>
    match df.getCol name with
    | none => Except.error "KeyError"
    | some c => Except.ok (name, c)

/-- Forward fill (`Series.ffill()`). -/
def ffillCells (carry : Option Cell) : List Cell → List Cell
  | [] => []
  | c :: cs =>
    match c with
    | Cell.null => (match carry with | some v => v | none => Cell.null) :: ffillCells carry cs
    | v => v :: ffillCells (some v) cs

/-- `fillna(v)`. -/
def fillnaCells (v : Cell) (cells : List Cell) : List Cell :=
  cells.map (fun c => if c = Cell.null then v else c)

/-- Mask keeping the first occurrence of each row (`~df.duplicated()`). -/
def keepFirstMask (seen : List (List Cell)) : List (List Cell) → List Bool
  | [] => []
  | r :: rest => (if r ∈ seen then false else true) :: keepFirstMask (r :: seen) rest

/-- The IQR fences `Q1 - 1.5*IQR` and `Q3 + 1.5*IQR` of a column, `none`
when the column has no numeric values (NaN fences). -/
def iqrFences (cells : List Cell) : Option (ℚ × ℚ) :=
  match quantileQ (1/4 : ℚ) cells, quantileQ (3/4 : ℚ) cells with
  | some q1, some q3 => some (q1 - 1.5 * (q3 - q1), q3 + 1.5 * (q3 - q1))
  | _, _ => none

end CleanerService

namespace CleanerService

/-- The body of one iteration of the `apply_fixes` loop (`cleaner.py`,
lines 12-89): dispatch on `strategy_code`, acting on the working copy and
the audit log -- the only state the Python loop body touches. -/
def applyFixBody (issues_map : List (String × DetectedIssue)) (df_clean : DataFrame)
    (audit_log : List String) (fix : FixRequest) : Except String (DataFrame × List String) :=
  let code := fix.strategy_code
  if code = "ignore" then Except.ok (df_clean, audit_log)
  else
    match issues_map.lookup fix.issue_id with
    | none => Except.ok (df_clean, audit_log)
    | some issue =>
      if code = "drop_rows" then
        -- `if col:` — skip silently on a None or empty column reference
        match issue.column with
        | none => Except.ok (df_clean, audit_log)
        | some name =>
          if name = "" then Except.ok (df_clean, audit_log)
          else
            match df_clean.getCol name with
            | none => Except.error "KeyError"
            | some c =>
              let mask := c.cells.map (fun x => !(x == Cell.null))
              Except.ok (df_clean.filterRows mask,
                audit_log ++
                  ["Dropped rows with missing values in '" ++ name ++ "'"])
      else if code = "fill_mean" then do
        let (name, c) ← requireColE df_clean issue.column
        let val ← meanE c.cells
        let newCells :=
          match val with
          | some v => fillnaCells (Cell.num v) c.cells
          | none => c.cells
        Except.ok (df_clean.setCol name c.dtype newCells,
          audit_log ++
            ["Filled missing '" ++ name ++ "' with mean (" ++ format2f val ++ ")"])
      else if code = "fill_median" then do
        let (name, c) ← requireColE df_clean issue.column
        let val ← medianE c.cells
        let newCells :=
          match val with
          | some v => fillnaCells (Cell.num v) c.cells
          | none => c.cells
        Except.ok (df_clean.setCol name c.dtype newCells,
          audit_log ++
            ["Filled missing '" ++ name ++ "' with median (" ++ format2f val ++ ")"])
      else if code = "fill_mode" then do
        let (name, c) ← requireColE df_clean issue.column
        match modeCells c.cells with
        | [] => Except.error "KeyError"  -- `mode()[0]` on an empty mode Series
        | v :: _ =>
          Except.ok (df_clean.setCol name c.dtype (fillnaCells v c.cells),
            audit_log ++
              ["Filled missing '" ++ name ++ "' with mode (" ++ cellPyStr v ++ ")"])
      else if code = "fill_unknown" then do
        let (name, c) ← requireColE df_clean issue.column
        -- filling with a string turns a numeric column into object dtype
        let dtype := if c.cells.any (fun x => x == Cell.null) then DType.object else c.dtype
        Except.ok (df_clean.setCol name dtype (fillnaCells (Cell.str "Unknown") c.cells),
          audit_log ++
            ["Filled missing '" ++ name ++ "' with 'Unknown'"])
      else if code = "ffill" then do
        let (name, c) ← requireColE df_clean issue.column
        Except.ok (df_clean.setCol name c.dtype (ffillCells none c.cells),
          audit_log ++
            ["Forward-filled missing values in '" ++ name ++ "'"])
      else if code = "remove_duplicates" then
        let before := df_clean.nRows
        let newDf := df_clean.filterRows (keepFirstMask [] df_clean.rowsList)
        Except.ok (newDf,
          audit_log ++
            ["Removed " ++ natToDecimal (before - newDf.nRows) ++ " duplicate rows"])
      else if code = "clip_outliers" then do
        let (name, c) ← requireColE df_clean issue.column
        let _ ← numStatCells c.cells  -- quantiles over string data raise TypeError
        match iqrFences c.cells with
        | some (lower, upper) =>
          let newCells := c.cells.map (fun x =>
            match x with
            | Cell.num v => Cell.num (min upper (max lower v))
            | other => other)
          Except.ok (df_clean.setCol name c.dtype newCells,
            audit_log ++
              ["Clipped outliers in '" ++ name ++ "' to [" ++ format2f (some lower) ++
                ", " ++ format2f (some upper) ++ "]"])
        | none =>
          -- all-null column: NaN fences, clipping leaves every NaN in place
          Except.ok (df_clean.setCol name c.dtype c.cells,
            audit_log ++
              ["Clipped outliers in '" ++ name ++ "' to [nan, nan]"])
      else if code = "drop_outliers" then do
        let (name, c) ← requireColE df_clean issue.column
        let _ ← numStatCells c.cells
        let mask :=
          match iqrFences c.cells with
          | some (lower, upper) =>
            c.cells.map (fun x =>
              match x with
              | Cell.num v => !(decide (v < lower ∨ v > upper))
              | _ => true)  -- NaN comparisons are false, so NaN rows are kept
          | none => c.cells.map (fun _ => true)
        Except.ok (df_clean.filterRows mask,
          audit_log ++
            ["Dropped outlier rows in '" ++ name ++ "'"])
      else if code = "convert_numeric" then do
        let (name, c) ← requireColE df_clean issue.column
        let newCells := c.cells.map (fun x =>
          match ProfilerService.coerceNumeric x with
          | some q => Cell.num q
          | none => Cell.null)
        Except.ok (df_clean.setCol name DType.numeric newCells,
          audit_log ++
            ["Converted '" ++ name ++ "' to Numeric (invalid values set to NaN)"])
      else if code = "title_case" then do
        let (name, c) ← requireColE df_clean issue.column
        Except.ok (df_clean.setCol name DType.object
            (c.cells.map (fun x => Cell.str (pyTitle (cellPyStr x)))),
          audit_log ++
            ["Standardized '" ++ name ++ "' to Title Case"])
      else if code = "lower_case" then do
        let (name, c) ← requireColE df_clean issue.column
        Except.ok (df_clean.setCol name DType.object
            (c.cells.map (fun x => Cell.str (pyLower (cellPyStr x)))),
          audit_log ++
            ["Standardized '" ++ name ++ "' to Lower Case"])
      else if code = "group_rare" then do
        let (name, c) ← requireColE df_clean issue.column
        let top := topValues c.cells
        let newCells := c.cells.map (fun x => if x ∈ top then x else Cell.str "Other")
        let dtype := if newCells.any isStrCell then DType.object else c.dtype
        Except.ok (df_clean.setCol name dtype newCells,
          audit_log ++
            ["Grouped rare categories in '" ++ name ++ "' into 'Other'"])
      else Except.ok (df_clean, audit_log)


/-- One iteration of the `apply_fixes` loop: the body above, with the
caller's frame `s.df` carried through untouched. -/
def applyFixStep (issues_map : List (String × DetectedIssue)) (s : CleanerState)
    (fix : FixRequest) : Except String CleanerState :=
  match applyFixBody issues_map s.df_clean s.audit_log fix with
  | Except.ok (d, a) => Except.ok ⟨s.df, d, a⟩
  | Except.error e => Except.error e

/-- The loop of `apply_fixes` over the selection list. -/
def applyFixesGo (issues_map : List (String × DetectedIssue)) :
    List FixRequest → CleanerState → Except String CleanerState
  | [], s => Except.ok s
  | fix :: rest, s =>
    match applyFixStep issues_map s fix with
    | Except.ok s' => applyFixesGo issues_map rest s'
    | Except.error e => Except.error e

/-- `CleanerService.apply_fixes` (`cleaner.py`, lines 7-91). -/
def apply_fixes (df : DataFrame) (fixes : List FixRequest)
    (issues_map : List (String × DetectedIssue)) :
    Except String (DataFrame × List String) :=
  match applyFixesGo issues_map fixes ⟨df, df.copy, []⟩ with
  | Except.ok s => Except.ok (s.df_clean, s.audit_log)
  | Except.error e => Except.error e

/-- The `action_code` values of the dispatch table of `apply_fixes`. -/
def dispatchCodes : List String :=
  ["drop_rows", "fill_mean", "fill_median", "fill_mode", "fill_unknown", "ffill",
   "remove_duplicates", "clip_outliers", "drop_outliers", "convert_numeric",
   "title_case", "lower_case", "group_rare"]

end CleanerService

/-! ## Concrete example data used by the closed witnesses -/

/-- Five-row frame with one numeric column `age` holding one null
(exactly 20% missing: the severity boundary). -/
def exDFa : DataFrame :=
  ⟨[⟨"age", DType.numeric,
     [Cell.num 1, Cell.null, Cell.num 3, Cell.num 4, Cell.num 5]⟩]⟩

/-- Ten-row frame with one numeric column `age` holding one extreme value
(10% outlier fraction). -/
def exDFb : DataFrame :=
  ⟨[⟨"age", DType.numeric,
     [Cell.num 25, Cell.num 26, Cell.num 27, Cell.num 28, Cell.num 29,
      Cell.num 30, Cell.num 25, Cell.num 26, Cell.num 27, Cell.num 200]⟩]⟩

/-- 100-row frame whose single numeric column is named `NumericScore` and
has 50 nulls: the column name leaks `"Numeric"` into the issue description. -/
def exDFnum : DataFrame :=
  ⟨[⟨"NumericScore", DType.numeric,
     List.replicate 50 Cell.null ++ (List.range 50).map (fun i => Cell.num ((i : ℚ) + 1))⟩]⟩

/-- A missing-values issue as a standalone advisor input. -/
def exIssueMissing : DetectedIssue :=
  ⟨"i1", IssueType.MISSING_VALUES, some "price", "many holes", Severity.MEDIUM,
    "impact", 100, []⟩

/-- A duplicates issue as a standalone advisor input. -/
def exIssueDup : DetectedIssue :=
  ⟨"i2", IssueType.DUPLICATES, none, "Dataset contains 3 exact duplicate rows.",
    Severity.HIGH, "impact", 3, []⟩

/-- An issue referring to a text column of `exDFc`. -/
def exIssueCat : DetectedIssue :=
  ⟨"i3", IssueType.VISUALIZATION_RISK, some "city", "too many cities", Severity.LOW,
    "impact", 14, []⟩

/-- Sixteen-row frame with one text column `city`: twelve distinct values,
one null, so `group_rare` must relabel beyond the top ten. -/
def exDFc : DataFrame :=
  ⟨[⟨"city", DType.object,
     [Cell.str "a", Cell.str "a", Cell.str "a", Cell.str "b", Cell.str "b",
      Cell.str "c", Cell.str "d", Cell.str "e", Cell.str "f", Cell.str "g",
      Cell.str "h", Cell.str "i", Cell.str "j", Cell.str "k", Cell.str "l",
      Cell.null]⟩]⟩

/-- 100-row frame like `exDFnum` but with a neutral column name `score`. -/
def exDFd : DataFrame :=
  ⟨[⟨"score", DType.numeric,
     List.replicate 50 Cell.null ++ (List.range 50).map (fun i => Cell.num ((i : ℚ) + 1))⟩]⟩

/-- The claim-side reading of "the issue's column name contains `date` or
`time` (case-insensitive)". -/
def colNameHasDateTime (column : Option String) : Prop :=
  ∃ s, column = some s ∧
    (substrOf "date" (pyLower s) ∨ substrOf "time" (pyLower s))

/-- An issue referring to the `age` column of `exDFa`. -/
def exIssueAge : DetectedIssue :=
  ⟨"i1", IssueType.MISSING_VALUES, some "age",
    "Column 'age' has 1 missing values (20.0%).", Severity.MEDIUM, "impact", 1, []⟩

/-!
# Theorems

General-purpose lemmas first, then one theorem per claim (with its closed
witness where the theorem carries hypotheses).
-/

/-- The Heuristic Advisor always returns a non-empty (truthy) strategy code. -/
theorem getDefaultStrategy_ne_empty (issue : DetectedIssue) :
    NLPService.getDefaultStrategy issue ≠ "" := by
  unfold NLPService.getDefaultStrategy
  repeat' split
  all_goals decide

/-- C7: `apply_fixes` with an empty selection list returns the dataset
unchanged in content, with an empty audit log. -/
theorem claim_C7_empty_selection_identity (df : DataFrame)
    (issues_map : List (String × DetectedIssue)) :
    CleanerService.apply_fixes df [] issues_map = Except.ok (df, []) := rfl

/-- A selection whose issue id is unknown, whose code is `ignore`, or whose
code is outside the dispatch table, is a complete no-op of the loop body. -/
theorem applyFixBody_skip (issues_map : List (String × DetectedIssue))
    (d : DataFrame) (a : List String) (fix : FixRequest)
    (h : issues_map.lookup fix.issue_id = none ∨ fix.strategy_code = "ignore" ∨
      fix.strategy_code ∉ CleanerService.dispatchCodes) :
    CleanerService.applyFixBody issues_map d a fix = Except.ok (d, a) := by
  rcases h with h | h | h
  · by_cases hc : fix.strategy_code = "ignore"
    · simp [CleanerService.applyFixBody, hc]
    · simp [CleanerService.applyFixBody, hc, h]
  · simp [CleanerService.applyFixBody, h]
  · simp only [CleanerService.dispatchCodes, List.mem_cons, List.not_mem_nil,
      or_false, not_or] at h
    obtain ⟨h1, h2, h3, h4, h5, h6, h7, h8, h9, h10, h11, h12, h13⟩ := h
    by_cases hc : fix.strategy_code = "ignore"
    · simp [CleanerService.applyFixBody, hc]
    · cases hm : issues_map.lookup fix.issue_id with
      | none => simp [CleanerService.applyFixBody, hc, hm]
      | some issue =>
        simp [CleanerService.applyFixBody, hc, hm,
          h1, h2, h3, h4, h5, h6, h7, h8, h9, h10, h11, h12, h13]

/-- The no-op lifts to the loop step on the full state. -/
theorem applyFixStep_skip (issues_map : List (String × DetectedIssue))
    (s : CleanerState) (fix : FixRequest)
    (h : issues_map.lookup fix.issue_id = none ∨ fix.strategy_code = "ignore" ∨
      fix.strategy_code ∉ CleanerService.dispatchCodes) :
    CleanerService.applyFixStep issues_map s fix = Except.ok s := by
  unfold CleanerService.applyFixStep
  rw [applyFixBody_skip issues_map s.df_clean s.audit_log fix h]

/-- C6: such a selection raises no error, appends no audit entry, leaves
the dataset state untouched, and the loop continues with the remaining
selections. -/
theorem claim_C6_silent_skip (issues_map : List (String × DetectedIssue))
    (s : CleanerState) (fix : FixRequest) (rest : List FixRequest)
    (h : issues_map.lookup fix.issue_id = none ∨ fix.strategy_code = "ignore" ∨
      fix.strategy_code ∉ CleanerService.dispatchCodes) :
    CleanerService.applyFixStep issues_map s fix = Except.ok s ∧
    CleanerService.applyFixesGo issues_map (fix :: rest) s =
      CleanerService.applyFixesGo issues_map rest s := by
  have hstep := applyFixStep_skip issues_map s fix h
  exact ⟨hstep, by simp [CleanerService.applyFixesGo, hstep]⟩

/-- Witness for C6: an unknown id together with an unknown code. -/
theorem claim_C6_silent_skip_witness :
    CleanerService.applyFixStep [] ⟨exDFa, exDFa, []⟩ ⟨"zzz", "frobnicate"⟩ =
      Except.ok ⟨exDFa, exDFa, []⟩ ∧
    CleanerService.applyFixesGo [] [⟨"zzz", "frobnicate"⟩] ⟨exDFa, exDFa, []⟩ =
      CleanerService.applyFixesGo [] [] ⟨exDFa, exDFa, []⟩ :=
  claim_C6_silent_skip [] ⟨exDFa, exDFa, []⟩ ⟨"zzz", "frobnicate"⟩ []
    (Or.inl (by decide))

/-- A successful loop step never modifies the caller's frame component. -/
theorem applyFixStep_df_preserved (issues_map : List (String × DetectedIssue))
    (s : CleanerState) (fix : FixRequest) (s' : CleanerState)
    (h : CleanerService.applyFixStep issues_map s fix = Except.ok s') :
    s'.df = s.df := by
  unfold CleanerService.applyFixStep at h
  split at h
  · injection h with h
    subst h
    rfl
  · cases h

/-- The whole loop never modifies the caller's frame component. -/
theorem applyFixesGo_df_preserved (issues_map : List (String × DetectedIssue)) :
    ∀ (fixes : List FixRequest) (s s' : CleanerState),
      CleanerService.applyFixesGo issues_map fixes s = Except.ok s' → s'.df = s.df := by
  intro fixes
  induction fixes with
  | nil =>
    intro s s' h
    injection h with h
    subst h
    rfl
  | cons fix rest ih =>
    intro s s' h
    simp only [CleanerService.applyFixesGo] at h
    split at h
    case h_1 s1 heq =>
      rw [ih _ s' h, applyFixStep_df_preserved issues_map s fix s1 heq]
    case h_2 => cases h

/-- C8: `apply_fixes` operates on a fresh copy: from the initial state it
builds, any successful run leaves the caller's original frame intact. -/
theorem claim_C8_fresh_copy (issues_map : List (String × DetectedIssue))
    (fixes : List FixRequest) (df : DataFrame) (s' : CleanerState)
    (h : CleanerService.applyFixesGo issues_map fixes ⟨df, df.copy, []⟩ = Except.ok s') :
    s'.df = df :=
  applyFixesGo_df_preserved issues_map fixes _ s' h

/-- Witness for C8: one actually-applied `drop_rows` action. -/
theorem claim_C8_fresh_copy_witness :
    (⟨exDFa, ⟨[⟨"age", DType.numeric, [Cell.num 1, Cell.num 3, Cell.num 4, Cell.num 5]⟩]⟩,
      ["Dropped rows with missing values in 'age'"]⟩ : CleanerState).df = exDFa :=
  claim_C8_fresh_copy [("i1", exIssueAge)] [⟨"i1", "drop_rows"⟩] exDFa _ (by rfl)

/-- The embedded truthiness-aware column test coincides with the claim-side
"column name contains date/time" reading. -/
theorem columnDateTime_iff (column : Option String) :
    NLPService.columnDateTime column ↔ colNameHasDateTime column := by
  cases column with
  | none =>
    simp [NLPService.columnDateTime, colNameHasDateTime]
  | some c =>
    simp only [NLPService.columnDateTime, colNameHasDateTime, Option.some_inj]
    constructor
    · rintro ⟨-, hdt⟩
      exact ⟨c, rfl, hdt⟩
    · rintro ⟨s, rfl, hdt⟩
      refine ⟨?_, hdt⟩
      rintro rfl
      rcases hdt with hdt | hdt <;> exact absurd hdt (by decide)

/-- C2: the Heuristic Advisor on a MissingValues issue: `drop_rows` below
the absolute floor of 20 or when `row_count / 1000 < 0.05`; otherwise
`ffill` for date/time column names; otherwise `fill_median` when the
description mentions `Numeric`; otherwise `fill_mode`. -/
theorem claim_C2_advisor_missing_chain (issue : DetectedIssue)
    (h : issue.type = IssueType.MISSING_VALUES) :
    ((issue.row_count < 20 ∨ (issue.row_count : ℚ) / 1000 < (0.05 : ℚ)) →
       NLPService.getDefaultStrategy issue = "drop_rows") ∧
    (¬(issue.row_count < 20 ∨ (issue.row_count : ℚ) / 1000 < (0.05 : ℚ)) →
      colNameHasDateTime issue.column →
       NLPService.getDefaultStrategy issue = "ffill") ∧
    (¬(issue.row_count < 20 ∨ (issue.row_count : ℚ) / 1000 < (0.05 : ℚ)) →
      ¬colNameHasDateTime issue.column →
      substrOf "Numeric" issue.description →
       NLPService.getDefaultStrategy issue = "fill_median") ∧
    (¬(issue.row_count < 20 ∨ (issue.row_count : ℚ) / 1000 < (0.05 : ℚ)) →
      ¬colNameHasDateTime issue.column →
      ¬substrOf "Numeric" issue.description →
       NLPService.getDefaultStrategy issue = "fill_mode") := by
  refine ⟨fun hs => ?_, fun hs hdt => ?_, fun hs hdt hn => ?_, fun hs hdt hn => ?_⟩ <;>
    simp only [NLPService.getDefaultStrategy, h, reduceCtorEq, if_false, reduceIte]
  · rw [if_pos hs]
  · rw [if_neg hs, if_pos ((columnDateTime_iff issue.column).mpr hdt)]
  · rw [if_neg hs, if_neg (fun hc => hdt ((columnDateTime_iff issue.column).mp hc)),
      if_pos hn]
  · rw [if_neg hs, if_neg (fun hc => hdt ((columnDateTime_iff issue.column).mp hc)),
      if_neg hn]

/-- Witness for C2: a 100-null issue on column `price` with a neutral
description falls through to `fill_mode`. -/
theorem claim_C2_advisor_missing_chain_witness :
    NLPService.getDefaultStrategy exIssueMissing = "fill_mode" :=
  (claim_C2_advisor_missing_chain exIssueMissing rfl).2.2.2 (by decide)
    (by rintro ⟨s, hs, hdt⟩; cases hs; revert hdt; decide) (by decide)

/-- The missing-values branch of the interpreter selects exactly the
MissingValues issues, each with its advisor default. -/
theorem interpret_filterMap_missing (issues : List DetectedIssue) :
    issues.filterMap (fun issue =>
      if issue.type = IssueType.MISSING_VALUES then
        let strategy := NLPService.getDefaultStrategy issue
        if strategy ≠ "" then some (issue.id, strategy) else none
      else none) =
    (issues.filter (fun i => i.type == IssueType.MISSING_VALUES)).map
      (fun i => (i.id, NLPService.getDefaultStrategy i)) := by
  induction issues with
  | nil => rfl
  | cons i rest ih =>
    by_cases hty : i.type = IssueType.MISSING_VALUES
    · simp only [List.filterMap_cons, List.filter_cons, hty, if_pos rfl, beq_self_eq_true,
        if_pos, List.map_cons, if_neg (getDefaultStrategy_ne_empty i), ih]
      simp [getDefaultStrategy_ne_empty i]
    · simp only [List.filterMap_cons, List.filter_cons, if_neg hty, ih]
      simp [hty]

/-- C4: on `"fix all missing values"` the missing-values intent fires (not
the catch-all), so the result selects exactly the MissingValues issues
paired with their advisor defaults, and nothing else. -/
theorem claim_C4_fix_all_missing (issues : List DetectedIssue)
    (hmv : ∃ i ∈ issues, i.type = IssueType.MISSING_VALUES)
    (hdup : ∃ i ∈ issues, i.type = IssueType.DUPLICATES) :
    NLPService.interpret_command "fix all missing values" issues =
      (issues.filter (fun i => i.type == IssueType.MISSING_VALUES)).map
        (fun i => (i.id, NLPService.getDefaultStrategy i)) := by
  unfold NLPService.interpret_command
  rw [if_neg (by decide), if_pos (by decide)]
  exact interpret_filterMap_missing issues

/-- Witness for C4: one MissingValues and one Duplicates issue. -/
theorem claim_C4_fix_all_missing_witness :
    NLPService.interpret_command "fix all missing values" [exIssueMissing, exIssueDup] =
      ([exIssueMissing, exIssueDup].filter
        (fun i => i.type == IssueType.MISSING_VALUES)).map
        (fun i => (i.id, NLPService.getDefaultStrategy i)) :=
  claim_C4_fix_all_missing [exIssueMissing, exIssueDup]
    ⟨exIssueMissing, by decide⟩ ⟨exIssueDup, by decide⟩

/-- Membership is invariant under sorted insertion. -/
theorem mem_insertSorted {α : Type} (le : α → α → Bool) (x a : α) :
    ∀ l : List α, a ∈ insertSorted le x l ↔ a = x ∨ a ∈ l := by
  intro l
  induction l with
  | nil => simp [insertSorted]
  | cons y ys ih =>
    by_cases hle : le x y = true
    · simp [insertSorted, hle]
    · simp only [insertSorted, if_neg hle, List.mem_cons, ih]
      tauto

/-- Membership is invariant under the stable sort. -/
theorem mem_stableSort {α : Type} (le : α → α → Bool) (a : α) :
    ∀ xs : List α, a ∈ stableSort le xs ↔ a ∈ xs := by
  intro xs
  induction xs with
  | nil => simp [stableSort]
  | cons x rest ih =>
    simp only [stableSort, List.foldr_cons, mem_insertSorted, List.mem_cons]
    rw [show List.foldr (insertSorted le) [] rest = stableSort le rest from rfl, ih]

/-- The NaN cell is never among `value_counts` values, hence never in the
top-10 index. -/
theorem null_not_mem_topValues (cells : List Cell) :
    Cell.null ∉ topValues cells := by
  intro hmem
  simp only [topValues, List.mem_map] at hmem
  obtain ⟨p, hp, hp1⟩ := hmem
  have hp' : p ∈ valueCounts cells := List.mem_of_mem_take hp
  simp only [valueCounts, mem_stableSort, List.mem_map] at hp'
  obtain ⟨v, hv, rfl⟩ := hp'
  simp only at hp1
  subst hp1
  simp only [uniqueNonNull, List.mem_dedup, List.mem_filter] at hv
  simp at hv

/-- `df[name] = cells` followed by `df[name]` returns the assigned column. -/
theorem find_setCol_aux (name : String) (d : DType) (cells : List Cell) :
    ∀ (cols : List Column) (c : Column),
      cols.find? (fun c2 => c2.name == name) = some c →
      (cols.map (fun c2 => if c2.name == name then ⟨c2.name, d, cells⟩ else c2)).find?
        (fun c2 => c2.name == name) = some ⟨name, d, cells⟩ := by
  intro cols
  induction cols with
  | nil => intro c h; cases h
  | cons c0 rest ih =>
    intro c h
    simp only [List.map_cons]
    by_cases h0 : (c0.name == name) = true
    · have hname : c0.name = name := by simpa using h0
      have heq : List.find? (fun c2 : Column => c2.name == name)
          ((⟨c0.name, d, cells⟩ : Column) ::
            rest.map (fun c2 => if (c2.name == name) = true then ⟨c2.name, d, cells⟩ else c2)) =
          some ⟨c0.name, d, cells⟩ := List.find?_cons_of_pos _ h0
      rw [if_pos h0, heq]
      simp [hname]
    · have heq : List.find? (fun c2 : Column => c2.name == name)
          (c0 :: rest.map (fun c2 => if (c2.name == name) = true then ⟨c2.name, d, cells⟩ else c2)) =
          List.find? (fun c2 : Column => c2.name == name)
            (rest.map (fun c2 => if (c2.name == name) = true then ⟨c2.name, d, cells⟩ else c2)) :=
        List.find?_cons_of_neg _ h0
      have heq2 : List.find? (fun c2 : Column => c2.name == name) (c0 :: rest) =
          List.find? (fun c2 : Column => c2.name == name) rest :=
        List.find?_cons_of_neg _ h0
      rw [if_neg h0, heq]
      rw [heq2] at h
      exact ih c h

theorem getCol_setCol (df : DataFrame) (name : String) (d : DType)
    (cells : List Cell) (c : Column) (h : df.getCol name = some c) :
    (df.setCol name d cells).getCol name = some ⟨name, d, cells⟩ :=
  find_setCol_aux name d cells df.cols c h

/-- C10: a dispatched `group_rare` relabels every cell not among the ten
most frequent non-null values — nulls included — to `"Other"`; afterwards
the column has no nulls and at most eleven distinct values. -/
theorem claim_C10_group_rare (issues_map : List (String × DetectedIssue))
    (s : CleanerState) (fix : FixRequest) (issue : DetectedIssue)
    (name : String) (c : Column)
    (hcode : fix.strategy_code = "group_rare")
    (hlook : issues_map.lookup fix.issue_id = some issue)
    (hcol : issue.column = some name)
    (hget : s.df_clean.getCol name = some c) :
    ∃ s', CleanerService.applyFixStep issues_map s fix = Except.ok s' ∧
      ∃ c', s'.df_clean.getCol name = some c' ∧
        c'.cells = c.cells.map
          (fun x => if x ∈ topValues c.cells then x else Cell.str "Other") ∧
        (∀ x ∈ c'.cells, x ≠ Cell.null) ∧
        c'.cells.dedup.length ≤ 11 := by
  have hbody : CleanerService.applyFixBody issues_map s.df_clean s.audit_log fix =
      Except.ok (s.df_clean.setCol name
        (if (c.cells.map (fun x => if x ∈ topValues c.cells then x
            else Cell.str "Other")).any CleanerService.isStrCell then DType.object
          else c.dtype)
        (c.cells.map (fun x => if x ∈ topValues c.cells then x else Cell.str "Other")),
        s.audit_log ++ ["Grouped rare categories in '" ++ name ++ "' into 'Other'"]) := by
    simp [CleanerService.applyFixBody, hcode, hlook, hcol, hget,
      CleanerService.requireColE, bind, Except.bind]
  refine ⟨⟨s.df,
    s.df_clean.setCol name
      (if (c.cells.map (fun x => if x ∈ topValues c.cells then x
          else Cell.str "Other")).any CleanerService.isStrCell then DType.object
        else c.dtype)
      (c.cells.map (fun x => if x ∈ topValues c.cells then x else Cell.str "Other")),
    s.audit_log ++ ["Grouped rare categories in '" ++ name ++ "' into 'Other'"]⟩, ?_, ?_⟩
  · unfold CleanerService.applyFixStep
    rw [hbody]
  refine ⟨_, getCol_setCol _ _ _ _ _ hget, rfl, ?_, ?_⟩
  · intro x hx
    simp only [List.mem_map] at hx
    obtain ⟨y, hy, rfl⟩ := hx
    by_cases ht : y ∈ topValues c.cells
    · rw [if_pos ht]
      intro hnull
      exact null_not_mem_topValues c.cells (hnull ▸ ht)
    · rw [if_neg ht]
      simp
  · have hsub : (c.cells.map (fun x => if x ∈ topValues c.cells then x
        else Cell.str "Other")) ⊆ topValues c.cells ++ [Cell.str "Other"] := by
      intro x hx
      simp only [List.mem_map] at hx
      obtain ⟨y, hy, rfl⟩ := hx
      by_cases ht : y ∈ topValues c.cells
      · rw [if_pos ht]; exact List.mem_append_left _ ht
      · rw [if_neg ht]; exact List.mem_append_right _ (by simp)
    have htop : (topValues c.cells).length ≤ 10 := by
      simpa [topValues] using List.length_take_le 10 (valueCounts c.cells)
    calc (c.cells.map (fun x => if x ∈ topValues c.cells then x
            else Cell.str "Other")).dedup.length
        = (c.cells.map (fun x => if x ∈ topValues c.cells then x
            else Cell.str "Other")).toFinset.card := (List.card_toFinset _).symm
      _ ≤ (topValues c.cells ++ [Cell.str "Other"]).toFinset.card := by
          apply Finset.card_le_card
          intro x hx
          simp only [List.mem_toFinset] at hx ⊢
          exact hsub hx
      _ ≤ (topValues c.cells ++ [Cell.str "Other"]).length := List.toFinset_card_le _
      _ = (topValues c.cells).length + 1 := by simp
      _ ≤ 11 := by omega

/-- Witness for C10: `group_rare` on the 16-row `city` column of `exDFc`. -/
theorem claim_C10_group_rare_witness :
    ∃ s', CleanerService.applyFixStep [("i3", exIssueCat)] ⟨exDFc, exDFc, []⟩
        ⟨"i3", "group_rare"⟩ = Except.ok s' ∧
      ∃ c', s'.df_clean.getCol "city" = some c' ∧
        c'.cells = (exDFc.cols.getD 0 ⟨"", DType.object, []⟩).cells.map
          (fun x => if x ∈ topValues (exDFc.cols.getD 0 ⟨"", DType.object, []⟩).cells
            then x else Cell.str "Other") ∧
        (∀ x ∈ c'.cells, x ≠ Cell.null) ∧
        c'.cells.dedup.length ≤ 11 :=
  claim_C10_group_rare [("i3", exIssueCat)] ⟨exDFc, exDFc, []⟩ ⟨"i3", "group_rare"⟩
    exIssueCat "city" (exDFc.cols.getD 0 ⟨"", DType.object, []⟩)
    rfl (by decide) rfl (by decide)

/-- Issues agreeing modulo id agree on every other field. -/
theorem stripId_fields (i j : DetectedIssue) (h : stripId i = stripId j) :
    i.type = j.type ∧ i.column = j.column ∧ i.description = j.description ∧
    i.severity = j.severity ∧ i.row_count = j.row_count := by
  cases i
  cases j
  simp only [stripId, DetectedIssue.mk.injEq] at h
  obtain ⟨-, hty, hcol, hdesc, hsev, -, hrc, -⟩ := h
  exact ⟨hty, hcol, hdesc, hsev, hrc⟩

/-- Id numbering only renames: every output issue matches an input issue
modulo id. -/
theorem of_mem_numberIds :
    ∀ (k : Nat) (l : List DetectedIssue) (j : DetectedIssue),
      j ∈ ProfilerService.numberIds k l → ∃ i ∈ l, stripId j = stripId i := by
  intro k l
  induction l generalizing k with
  | nil => intro j h; cases h
  | cons i rest ih =>
    intro j h
    rw [ProfilerService.numberIds] at h
    rcases List.mem_cons.mp h with h | h
    · exact ⟨i, List.mem_cons_self i rest, by rw [h]; rfl⟩
    · obtain ⟨i0, hi0, me⟩ := ih (k + 1) j h
      exact ⟨i0, List.mem_cons_of_mem i hi0, me⟩

/-- Conversely, every input issue appears in the numbered output modulo id. -/
theorem mem_numberIds_of_mem :
    ∀ (k : Nat) (l : List DetectedIssue) (i : DetectedIssue),
      i ∈ l → ∃ j ∈ ProfilerService.numberIds k l, stripId j = stripId i := by
  intro k l
  induction l generalizing k with
  | nil => intro i h; cases h
  | cons i0 rest ih =>
    intro i h
    rw [ProfilerService.numberIds]
    rcases List.mem_cons.mp h with h | h
    · exact ⟨_, List.mem_cons_self _ _, by rw [h]; rfl⟩
    · obtain ⟨j, hj, me⟩ := ih (k + 1) i h
      exact ⟨j, List.mem_cons_of_mem _ hj, me⟩

/-- Check 1 only emits MissingValues issues. -/
theorem missingIssues_type (df : DataFrame) :
    ∀ i ∈ ProfilerService.missingIssues df, i.type = IssueType.MISSING_VALUES := by
  intro i hi
  simp only [ProfilerService.missingIssues, List.mem_filterMap] at hi
  obtain ⟨c, -, hf⟩ := hi
  split at hf
  · injection hf with hf
    rw [← hf]
    rfl
  · cases hf

/-- Check 2 only emits Duplicates issues. -/
theorem duplicateIssues_type (df : DataFrame) :
    ∀ i ∈ ProfilerService.duplicateIssues df, i.type = IssueType.DUPLICATES := by
  intro i hi
  simp only [ProfilerService.duplicateIssues] at hi
  split at hi
  · rcases List.mem_singleton.mp hi with rfl
    rfl
  · cases hi

/-- Check 3 only emits Outliers issues, and only under its guards. -/
theorem outlierIssues_inv (df : DataFrame) (i : DetectedIssue)
    (h : i ∈ ProfilerService.outlierIssues df) :
    ∃ c ∈ df.cols, c.dtype = DType.numeric ∧ ¬ProfilerService.idLikeName c.name ∧
      i.type = IssueType.OUTLIERS ∧ i.column = some c.name ∧
      0 < ProfilerService.outlierPct df c.cells ∧
      ProfilerService.outlierPct df c.cells < 15 := by
  simp only [ProfilerService.outlierIssues, List.mem_filterMap, List.mem_filter] at h
  obtain ⟨c, ⟨hcm, hdt⟩, hf⟩ := h
  split at hf
  · cases hf
  · rename_i hid
    split at hf
    · split at hf
      · rename_i hcnt hpct
        injection hf with hf
        exact ⟨c, hcm, by simpa using hdt, hid, by rw [← hf], by rw [← hf],
          hpct.1, hpct.2⟩
      · cases hf
    · cases hf

/-- Check 4 only emits InconsistentType issues. -/
theorem inconsistentTypeIssues_type (df : DataFrame) :
    ∀ i ∈ ProfilerService.inconsistentTypeIssues df,
      i.type = IssueType.INCONSISTENT_TYPE := by
  intro i hi
  simp only [ProfilerService.inconsistentTypeIssues, List.mem_filterMap,
    List.mem_filter] at hi
  obtain ⟨c, -, hf⟩ := hi
  split at hf
  · injection hf with hf
    rw [← hf]
  · cases hf

/-- Check 5 only emits TextInconsistency issues. -/
theorem textCaseIssues_type (df : DataFrame) :
    ∀ i ∈ ProfilerService.textCaseIssues df, i.type = IssueType.TEXT_INCONSISTENCY := by
  intro i hi
  simp only [ProfilerService.textCaseIssues, List.mem_filterMap, List.mem_filter] at hi
  obtain ⟨c, -, hf⟩ := hi
  split at hf
  · split at hf
    · injection hf with hf
      rw [← hf]
    · cases hf
  · cases hf

/-- Every analyzer output matches an output of one of the five checks,
modulo id. -/
theorem analyze_mem_parts (df : DataFrame) (i : DetectedIssue)
    (h : i ∈ ProfilerService.analyze df) :
    ∃ i0, stripId i = stripId i0 ∧
      (i0 ∈ ProfilerService.missingIssues df ∨ i0 ∈ ProfilerService.duplicateIssues df ∨
       i0 ∈ ProfilerService.outlierIssues df ∨
       i0 ∈ ProfilerService.inconsistentTypeIssues df ∨
       i0 ∈ ProfilerService.textCaseIssues df) := by
  obtain ⟨i0, h0, hs⟩ := of_mem_numberIds 0 _ i h
  simp only [ProfilerService.analyzeRaw, List.mem_append] at h0
  exact ⟨i0, hs, by tauto⟩

/-- C1 (the detector side of the claim): `analyze` never emits a
VisualizationRisk issue -- the high-cardinality check is absent from the
code, although the model, advisor and transform engine all support it. -/
theorem claim_C1_no_visualization_risk (df : DataFrame) (i : DetectedIssue)
    (h : i ∈ ProfilerService.analyze df) :
    i.type ≠ IssueType.VISUALIZATION_RISK := by
  obtain ⟨i0, hs, hcases⟩ := analyze_mem_parts df i h
  have hty : i.type = i0.type := (stripId_fields i i0 hs).1
  rw [hty]
  rcases hcases with h0 | h0 | h0 | h0 | h0
  · rw [missingIssues_type df i0 h0]; decide
  · rw [duplicateIssues_type df i0 h0]; decide
  · obtain ⟨c, -, -, -, ht, -⟩ := outlierIssues_inv df i0 h0
    rw [ht]; decide
  · rw [inconsistentTypeIssues_type df i0 h0]; decide
  · rw [textCaseIssues_type df i0 h0]; decide

/-- Witness for C1: evaluated on the concrete frame `exDFa`. -/
theorem claim_C1_no_visualization_risk_witness :
    ((ProfilerService.analyze exDFa).getD 0 default).type ≠
      IssueType.VISUALIZATION_RISK :=
  claim_C1_no_visualization_risk exDFa _ (by decide)

/-- The code's `pct > 20` (on `pct = frac * 100`) is the claim's
`frac > 0.20`. -/
theorem missingPct_gt_iff (df : DataFrame) (cnt : Nat) :
    ProfilerService.missingPct df cnt > 20 ↔
      (cnt : ℚ) / (df.nRows : ℚ) > (0.20 : ℚ) := by
  unfold ProfilerService.missingPct
  constructor <;> intro h <;> nlinarith [h]

/-- C3: every column with nulls yields a MissingValues issue whose severity
is High exactly when the null fraction exceeds 20%, and Medium otherwise
(in particular Medium at exactly 20%). -/
theorem claim_C3_missing_severity (df : DataFrame) (c : Column)
    (hc : c ∈ df.cols) (hN : 0 < nullCount c.cells) :
    ∃ i ∈ ProfilerService.analyze df,
      i.type = IssueType.MISSING_VALUES ∧ i.column = some c.name ∧
      i.row_count = (nullCount c.cells : Int) ∧
      i.severity = (if (nullCount c.cells : ℚ) / (df.nRows : ℚ) > (0.20 : ℚ)
        then Severity.HIGH else Severity.MEDIUM) := by
  have hmem0 : ProfilerService.mkMissingIssue df c ∈ ProfilerService.missingIssues df :=
    List.mem_filterMap.mpr ⟨c, hc, by rw [if_pos hN]⟩
  have hraw : ProfilerService.mkMissingIssue df c ∈ ProfilerService.analyzeRaw df := by
    unfold ProfilerService.analyzeRaw
    exact List.mem_append_left _ (List.mem_append_left _
      (List.mem_append_left _ (List.mem_append_left _ hmem0)))
  obtain ⟨j, hj, hsj⟩ := mem_numberIds_of_mem 0 _ _ hraw
  obtain ⟨hty, hcol, -, hsev, hrc⟩ := stripId_fields j _ hsj
  refine ⟨j, hj, hty.trans rfl, hcol.trans rfl, hrc.trans rfl, ?_⟩
  rw [hsev]
  show (if ProfilerService.missingPct df (nullCount c.cells) > 20
    then Severity.HIGH else Severity.MEDIUM) = _
  by_cases hgt : (nullCount c.cells : ℚ) / (df.nRows : ℚ) > (0.20 : ℚ)
  · rw [if_pos ((missingPct_gt_iff df _).mpr hgt), if_pos hgt]
  · rw [if_neg (fun hg => hgt ((missingPct_gt_iff df _).mp hg)), if_neg hgt]

/-- Witness for C3: the `age` column of `exDFa`, at the exact 20% boundary,
where the issue comes out Medium. -/
theorem claim_C3_missing_severity_witness :
    ∃ i ∈ ProfilerService.analyze exDFa,
      i.type = IssueType.MISSING_VALUES ∧ i.column = some "age" ∧
      i.row_count = ((1 : Nat) : Int) ∧
      i.severity = (if ((1 : Nat) : ℚ) / ((5 : Nat) : ℚ) > (0.20 : ℚ)
        then Severity.HIGH else Severity.MEDIUM) :=
  claim_C3_missing_severity exDFa
    ⟨"age", DType.numeric, [Cell.num 1, Cell.null, Cell.num 3, Cell.num 4, Cell.num 5]⟩
    (by decide) (by decide)

/-- C5: every Outliers issue comes from a numeric, non-identifier-named
column whose outlier fraction lies strictly between 0% and 15%; identifier
columns are never flagged, whatever their distribution. -/
theorem claim_C5_outlier_guards (df : DataFrame) (i : DetectedIssue)
    (hm : i ∈ ProfilerService.analyze df) (ht : i.type = IssueType.OUTLIERS) :
    ∃ c ∈ df.cols, i.column = some c.name ∧ c.dtype = DType.numeric ∧
      ¬ProfilerService.idLikeName c.name ∧
      0 < ProfilerService.outlierPct df c.cells ∧
      ProfilerService.outlierPct df c.cells < 15 := by
  obtain ⟨i0, hs, hcases⟩ := analyze_mem_parts df i hm
  obtain ⟨hty, hcol, -, -, -⟩ := stripId_fields i i0 hs
  have hty0 : i0.type = IssueType.OUTLIERS := hty ▸ ht
  rcases hcases with h0 | h0 | h0 | h0 | h0
  · exact absurd (hty0.symm.trans (missingIssues_type df i0 h0)) (by decide)
  · exact absurd (hty0.symm.trans (duplicateIssues_type df i0 h0)) (by decide)
  · obtain ⟨c, hcm, hdt, hid, -, hcol0, hp1, hp2⟩ := outlierIssues_inv df i0 h0
    exact ⟨c, hcm, hcol.trans hcol0, hdt, hid, hp1, hp2⟩
  · exact absurd (hty0.symm.trans (inconsistentTypeIssues_type df i0 h0)) (by decide)
  · exact absurd (hty0.symm.trans (textCaseIssues_type df i0 h0)) (by decide)

/-- Witness for C5: the Outliers issue of `exDFb` (value 200 in `age`). -/
theorem claim_C5_outlier_guards_witness :
    ∃ c ∈ exDFb.cols,
      ((ProfilerService.analyze exDFb).getD 1 default).column = some c.name ∧
      c.dtype = DType.numeric ∧ ¬ProfilerService.idLikeName c.name ∧
      0 < ProfilerService.outlierPct exDFb c.cells ∧
      ProfilerService.outlierPct exDFb c.cells < 15 :=
  claim_C5_outlier_guards exDFb _ (by decide) (by decide)

/-- An infix of `a ++ b` lies in `a`, lies in `b`, or straddles the border
with a non-empty suffix of `a` and a non-empty prefix of `b`. -/
theorem isInfix_append_split {α : Type} {w a b : List α} (h : w <:+: a ++ b) :
    w <:+: a ∨ w <:+: b ∨
      ∃ s t, w = s ++ t ∧ s ≠ [] ∧ t ≠ [] ∧ s <:+ a ∧ t <+: b := by
  obtain ⟨p, q, hpq⟩ := h
  by_cases h1 : p.length + w.length ≤ a.length
  · left
    have hp : (p ++ w) <+: a ++ b := ⟨q, by simpa [List.append_assoc] using hpq⟩
    have hpa : (p ++ w) <+: a :=
      List.prefix_of_prefix_length_le hp (List.prefix_append a b) (by simpa using h1)
    obtain ⟨r, hr⟩ := hpa
    exact ⟨p, r, by simpa [List.append_assoc] using hr⟩
  · by_cases h2 : a.length ≤ p.length
    · right; left
      have hap : a <+: p :=
        List.prefix_of_prefix_length_le (List.prefix_append a b)
          ⟨w ++ q, by simpa [List.append_assoc] using hpq⟩ h2
      obtain ⟨r, hr⟩ := hap
      refine ⟨r, q, ?_⟩
      have hb : a ++ (r ++ (w ++ q)) = a ++ b := by
        rw [← hr] at hpq
        simpa [List.append_assoc] using hpq
      have hcancel := List.append_cancel_left hb
      simpa [List.append_assoc] using hcancel
    · right; right
      push_neg at h1 h2
      refine ⟨w.take (a.length - p.length), w.drop (a.length - p.length),
        (List.take_append_drop _ w).symm, ?_, ?_, ?_, ?_⟩
      · intro hnil
        have hlen := congrArg List.length hnil
        simp only [List.length_take, List.length_nil] at hlen
        omega
      · intro hnil
        have hlen := congrArg List.length hnil
        simp only [List.length_drop, List.length_nil] at hlen
        omega
      · refine ⟨p, ?_⟩
        have htake : ((p ++ w) ++ q).take a.length =
            p ++ w.take (a.length - p.length) := by
          rw [List.append_assoc, List.take_append_eq_append_take,
            List.take_of_length_le (Nat.le_of_lt h2), List.take_append_eq_append_take]
          have hz : a.length - p.length - w.length = 0 := by omega
          rw [hz, List.take_zero, List.append_nil]
        rw [← htake, hpq, List.take_left]
      · refine ⟨q, ?_⟩
        have hdrop : ((p ++ w) ++ q).drop a.length =
            w.drop (a.length - p.length) ++ q := by
          rw [List.append_assoc, List.drop_append_eq_append_drop,
            List.drop_eq_nil_of_le (Nat.le_of_lt h2), List.nil_append,
            List.drop_append_eq_append_drop]
          have hz : a.length - p.length - w.length = 0 := by omega
          rw [hz, List.drop_zero]
        rw [← hdrop, hpq, List.drop_left]

/-- A non-empty suffix of `a ++ [c]` contains `c`. -/
theorem suffix_concat_mem {α : Type} {s a : List α} {c : α}
    (h : s <:+ a ++ [c]) (hne : s ≠ []) : c ∈ s := by
  rcases List.eq_nil_or_concat s with rfl | ⟨s', x, rfl⟩
  · exact absurd rfl hne
  · obtain ⟨p, hp⟩ := h
    have hx : (p ++ s').concat x = a.concat c := by
      simpa [List.concat_eq_append, List.append_assoc] using hp
    have := (List.concat_inj.mp hx).2
    subst this
    simp

/-- A non-empty prefix of `c :: b` contains `c`. -/
theorem prefix_cons_mem {α : Type} {t b : List α} {c : α}
    (h : t <+: c :: b) (hne : t ≠ []) : c ∈ t := by
  obtain ⟨r, hr⟩ := h
  cases t with
  | nil => exact absurd rfl hne
  | cons x ts =>
    rw [List.cons_append] at hr
    injection hr with h1 h2
    subst h1
    simp

/-- If `c` does not occur in `w`, an infix of `(a ++ [c]) ++ b` that is not
an infix of `a ++ [c]` is an infix of `b`. -/
theorem infix_right_of_append_concat {α : Type} {w a b : List α} {c : α}
    (hc : c ∉ w) (h : w <:+: (a ++ [c]) ++ b) (hw : ¬w <:+: a ++ [c]) :
    w <:+: b := by
  rcases isInfix_append_split h with h | h | ⟨s, t, rfl, hs, ht, hsuf, hpre⟩
  · exact absurd h hw
  · exact h
  · exact absurd (List.mem_append_left t (suffix_concat_mem hsuf hs)) hc

/-- If `c` does not occur in `w`, an infix of `a ++ (c :: b)` that is not
an infix of `c :: b` is an infix of `a`. -/
theorem infix_left_of_append_cons {α : Type} {w a b : List α} {c : α}
    (hc : c ∉ w) (h : w <:+: a ++ (c :: b)) (hw : ¬w <:+: c :: b) :
    w <:+: a := by
  rcases isInfix_append_split h with h | h | ⟨s, t, rfl, hs, ht, hsuf, hpre⟩
  · exact h
  · exact absurd h hw
  · exact absurd (List.mem_append_right s (prefix_cons_mem hpre ht)) hc

/-- Digit characters are decimal digits. -/
theorem digitChar_mem_digits (d : Nat) : digitChar d ∈ ("0123456789").data := by
  unfold digitChar
  repeat' split
  all_goals decide

/-- Every character of a decimal rendering is a digit. -/
theorem natDecDataAux_digits :
    ∀ (fuel n : Nat), ∀ ch ∈ natDecDataAux fuel n, ch ∈ ("0123456789").data := by
  intro fuel
  induction fuel with
  | zero => intro n ch h; cases h
  | succ f ih =>
    intro n ch h
    simp only [natDecDataAux] at h
    split at h
    · rcases List.mem_singleton.mp h with rfl
      exact digitChar_mem_digits n
    · rcases List.mem_append.mp h with h | h
      · exact ih _ ch h
      · rcases List.mem_singleton.mp h with rfl
        exact digitChar_mem_digits _

theorem natDecData_digits (n : Nat) :
    ∀ ch ∈ natDecData n, ch ∈ ("0123456789").data :=
  natDecDataAux_digits (n + 1) n

/-- Every character of a `:.1f` rendering is a digit, a dot, or a minus. -/
theorem formatPct1_chars (x : ℚ) :
    ∀ ch ∈ (formatPct1 x).data, ch ∈ ("0123456789.-").data := by
  intro ch h
  have hdig : ∀ c ∈ ("0123456789").data, c ∈ ("0123456789.-").data := by
    intro c hc
    fin_cases hc <;> decide
  simp only [formatPct1] at h
  split at h
  · simp only [String.data_append] at h
    rcases List.mem_append.mp h with h | h
    · rcases List.mem_cons.mp h with rfl | h
      · decide
      · cases h
    · rcases List.mem_append.mp h with h | h
      · rcases List.mem_append.mp h with h | h
        · exact hdig ch (natDecData_digits _ ch h)
        · rcases List.mem_cons.mp h with rfl | h
          · decide
          · cases h
      · rcases List.mem_cons.mp h with rfl | h
        · exact hdig _ (digitChar_mem_digits _)
        · cases h
  · simp only [String.data_append] at h
    rcases List.mem_append.mp h with h | h
    · rcases List.mem_append.mp h with h | h
      · exact hdig ch (natDecData_digits _ ch h)
      · rcases List.mem_cons.mp h with rfl | h
        · decide
        · cases h
    · rcases List.mem_cons.mp h with rfl | h
      · exact hdig _ (digitChar_mem_digits _)
      · cases h

/-- The capital `N` never occurs in the fixed-and-numeric tail of a
missing-values description. -/
theorem capitalN_not_in_desc_tail (cnt : Nat) (pct : ℚ) :
    ('N' : Char) ∉ (" has ").data ++ natDecData cnt ++ (" missing values (").data ++
      (formatPct1 pct).data ++ ("%).").data := by
  intro h
  rcases List.mem_append.mp h with h | h
  · rcases List.mem_append.mp h with h | h
    · rcases List.mem_append.mp h with h | h
      · rcases List.mem_append.mp h with h | h
        · revert h; decide
        · have := natDecData_digits cnt 'N' h
          revert this; decide
      · revert h; decide
    · have := formatPct1_chars pct 'N' h
      revert this; decide
  · revert h; decide

/-- The missing-values description contains `"Numeric"` only when the
column name itself does: the fixed text has no capital `N`, the count and
percentage render as digits, and no occurrence can straddle the quote
characters around the name. -/
theorem numeric_not_in_missingDesc (name : String) (cnt : Nat) (pct : ℚ)
    (hn : ¬substrOf "Numeric" name) :
    ¬substrOf "Numeric" (ProfilerService.missingDesc name cnt pct) := by
  intro h
  have hdata : (ProfilerService.missingDesc name cnt pct).data =
      ("Column ".data ++ ['\'']) ++ (name.data ++ ('\'' ::
        ((" has ").data ++ natDecData cnt ++ (" missing values (").data ++
          (formatPct1 pct).data ++ ("%).").data))) := by
    simp only [ProfilerService.missingDesc, String.data_append, natToDecimal,
      List.append_assoc]
    rfl
  unfold substrOf at h hn
  rw [hdata] at h
  have hq : ('\'' : Char) ∉ "Numeric".data := by decide
  have h2 := infix_right_of_append_concat hq h (by decide)
  have hnb : ¬("Numeric".data <:+: '\'' ::
      ((" has ").data ++ natDecData cnt ++ (" missing values (").data ++
        (formatPct1 pct).data ++ ("%).").data)) := by
    intro hinf
    have hNin := hinf.subset (by decide : ('N' : Char) ∈ "Numeric".data)
    rcases List.mem_cons.mp hNin with heq | hmem
    · exact absurd heq (by decide)
    · exact capitalN_not_in_desc_tail cnt pct hmem
  exact hn (infix_left_of_append_cons hq h2 hnb)

/-- Inversion for check 1: a missing-values issue is the canonical issue of
some column with a positive null count. -/
theorem missingIssues_inv (df : DataFrame) (i : DetectedIssue)
    (h : i ∈ ProfilerService.missingIssues df) :
    ∃ c ∈ df.cols, 0 < nullCount c.cells ∧ i = ProfilerService.mkMissingIssue df c := by
  simp only [ProfilerService.missingIssues, List.mem_filterMap] at h
  obtain ⟨c, hc, hf⟩ := h
  split at hf
  · injection hf with hf
    exact ⟨c, hc, by assumption, hf.symm⟩
  · cases hf

/-- C9 (amended): descriptions of analyzer-produced MissingValues issues
contain `"Numeric"` only when the column name does; on a column whose name
avoids `"Numeric"` the advisor never returns `fill_median`, and with at
least 50 missing values and no date/time name it returns `fill_mode`. -/
theorem claim_C9_amended (df : DataFrame) (i : DetectedIssue) (name : String)
    (hm : i ∈ ProfilerService.analyze df) (ht : i.type = IssueType.MISSING_VALUES)
    (hcol : i.column = some name) (hnm : ¬substrOf "Numeric" name) :
    (∃ cnt pct, i.description = ProfilerService.missingDesc name cnt pct ∧
      i.row_count = (cnt : Int)) ∧
    ¬substrOf "Numeric" i.description ∧
    NLPService.getDefaultStrategy i ≠ "fill_median" ∧
    ((50 : Int) ≤ i.row_count → ¬colNameHasDateTime i.column →
      NLPService.getDefaultStrategy i = "fill_mode") := by
  obtain ⟨i0, hs, hcases⟩ := analyze_mem_parts df i hm
  obtain ⟨hty, hcol0, hdesc, -, hrc0⟩ := stripId_fields i i0 hs
  have hty0 : i0.type = IssueType.MISSING_VALUES := hty ▸ ht
  have hmiss : i0 ∈ ProfilerService.missingIssues df := by
    rcases hcases with h0 | h0 | h0 | h0 | h0
    · exact h0
    · exact absurd (hty0.symm.trans (duplicateIssues_type df i0 h0)) (by decide)
    · obtain ⟨c, -, -, -, ht0, -⟩ := outlierIssues_inv df i0 h0
      exact absurd (hty0.symm.trans ht0) (by decide)
    · exact absurd (hty0.symm.trans (inconsistentTypeIssues_type df i0 h0)) (by decide)
    · exact absurd (hty0.symm.trans (textCaseIssues_type df i0 h0)) (by decide)
  obtain ⟨c, -, -, hi0⟩ := missingIssues_inv df i0 hmiss
  have hname : name = c.name := by
    have hcc : i.column = some c.name := by rw [hcol0, hi0]; rfl
    rw [hcol] at hcc
    exact Option.some.inj hcc
  have hdesc_eq : i.description = ProfilerService.missingDesc c.name
      (nullCount c.cells) (ProfilerService.missingPct df (nullCount c.cells)) := by
    rw [hdesc, hi0]
    rfl
  have hfree : ¬substrOf "Numeric" i.description := by
    rw [hdesc_eq]
    exact numeric_not_in_missingDesc c.name _ _ (hname ▸ hnm)
  have hrc' : i.row_count = (nullCount c.cells : Int) := by
    rw [hrc0, hi0]
    rfl
  refine ⟨⟨nullCount c.cells, ProfilerService.missingPct df (nullCount c.cells),
    by rw [hdesc_eq, hname], hrc'⟩, hfree, ?_, ?_⟩
  · simp only [NLPService.getDefaultStrategy, ht, reduceCtorEq, if_false, reduceIte]
    repeat' split
    all_goals decide
  · intro hrc hndt
    have hsmall : ¬(i.row_count < 20 ∨ (i.row_count : ℚ) / 1000 < (0.05 : ℚ)) := by
      rintro (hlt | hlt)
      · omega
      · have h50 : (50 : ℚ) ≤ (i.row_count : ℚ) := by exact_mod_cast hrc
        linarith
    have hcdt : ¬NLPService.columnDateTime i.column :=
      fun hc => hndt ((columnDateTime_iff i.column).mp hc)
    simp only [NLPService.getDefaultStrategy, ht, reduceCtorEq, if_false, reduceIte]
    rw [if_neg hsmall, if_neg hcdt, if_neg hfree]

/-- Counterexample to C9 as stated: on the column named `NumericScore`
with 50 of 100 values missing, the description does contain `"Numeric"`
and the advisor returns `fill_median`, not `fill_mode`. -/
theorem claim_C9_counterexample :
    ((ProfilerService.analyze exDFnum).getD 0 default).type =
      IssueType.MISSING_VALUES ∧
    ((ProfilerService.analyze exDFnum).getD 0 default).column =
      some "NumericScore" ∧
    substrOf "Numeric" ((ProfilerService.analyze exDFnum).getD 0 default).description ∧
    (50 : Int) ≤ ((ProfilerService.analyze exDFnum).getD 0 default).row_count ∧
    ¬(substrOf "date" (pyLower "NumericScore") ∨
      substrOf "time" (pyLower "NumericScore")) ∧
    NLPService.getDefaultStrategy ((ProfilerService.analyze exDFnum).getD 0 default) =
      "fill_median" := by
  decide

/-- Witness for the amended C9: the `score` column of `exDFd` with 50
missing values gets `fill_mode`. -/
theorem claim_C9_amended_witness :
    (∃ cnt pct, ((ProfilerService.analyze exDFd).getD 0 default).description =
        ProfilerService.missingDesc "score" cnt pct ∧
      ((ProfilerService.analyze exDFd).getD 0 default).row_count = (cnt : Int)) ∧
    ¬substrOf "Numeric" ((ProfilerService.analyze exDFd).getD 0 default).description ∧
    NLPService.getDefaultStrategy ((ProfilerService.analyze exDFd).getD 0 default) ≠
      "fill_median" ∧
    ((50 : Int) ≤ ((ProfilerService.analyze exDFd).getD 0 default).row_count →
      ¬colNameHasDateTime ((ProfilerService.analyze exDFd).getD 0 default).column →
      NLPService.getDefaultStrategy ((ProfilerService.analyze exDFd).getD 0 default) =
        "fill_mode") :=
  claim_C9_amended exDFd _ "score" (by decide) (by decide) (by decide) (by decide)
